import Mathlib

/-!
Verification of the checkout-flow orchestrator in `pro/views.py`
(class `PayPalPro`) of the django-paypal repository.

The embedding models the orchestration layer faithfully:
query/body parameters and gateway responses are association lists,
the external collaborators (form validation, record processing, the
two gateway calls) are oracle inputs gathered in a `World` value, and
each request handling produces three observables: an `Except`-wrapped
HTTP result (the `error` case models a propagating Python exception
such as KeyError), a trace of side-effect events (record init, record
process, record save, failure flag, gateway calls), and the new
orchestrator instance state (so that mutation of `self.request` and
`self.item` is visible).
-/

/-- Query/body parameter collections and gateway responses: association
lists from names to string values, as Python dictionaries restricted to
the operations used by the source (membership test, lookup, update). -/
abbrev Params := List (String × String)

/-- Python `k in d`: membership test on a parameter collection. -/
def hasKey (l : Params) (k : String) : Bool :=
  l.any (fun p => p.1 == k)

/-- Python `d.get(k)` / guarded `d[k]`: lookup returning an optional value. -/
def getKey (l : Params) (k : String) : Option String :=
  (l.find? (fun p => p.1 == k)).map (fun p => p.2)

/-- Python `d[k] = v` (as performed by `d.update(...)` per key): overwrite
the value when the key is present, append it otherwise. -/
def setKey (l : Params) (k v : String) : Params :=
  if hasKey l k then l.map (fun p => if p.1 == k then (k, v) else p)
  else l ++ [(k, v)]

/-- An inbound HTTP request: its method string and its query (GET) and
body (POST) parameter collections. -/
structure Request where
  method : String
  GET : Params
  POST : Params
deriving DecidableEq, Repr

/-- `urllib.urlencode` on the parameter dictionary built by
`redirect_to_express`, restricted to URL-safe values: joins
key=value pairs with ampersands. -/
def urlencode (ps : Params) : String :=
  String.intercalate "&" (ps.map (fun p => p.1 ++ "=" ++ p.2))

/-- The production express-checkout endpoint constant of `views.py`,
applied to an encoded query string (the `%s` slot of the source). -/
def EXPRESS_ENDPOINT (qs : String) : String :=
  "https://www.paypal.com/webscr?cmd=_express-checkout&" ++ qs

/-- The sandbox express-checkout endpoint constant of `views.py`,
applied to an encoded query string (the `%s` slot of the source). -/
def SANDBOX_EXPRESS_ENDPOINT (qs : String) : String :=
  "https://www.sandbox.paypal.com/webscr?cmd=_express-checkout&" ++ qs

/-- Which of the two endpoint constants a configuration selects. -/
inductive Endpoint
  | production
  | sandbox
deriving DecidableEq, Repr

/-- The format function each endpoint constant denotes. -/
def endpointFormat : Endpoint → String → String
  | Endpoint.production => EXPRESS_ENDPOINT
  | Endpoint.sandbox => SANDBOX_EXPRESS_ENDPOINT

/-- Construction-time configuration of a `PayPalPro` instance: the
keyword arguments of `__init__` that the orchestration logic reads. -/
structure ProConfig where
  paymentTemplate : String := "pro/payment.html"
  confirmTemplate : String := "pro/confirm.html"
  successUrl : String := "?success"
  failUrl : Option String := none
  test : Bool := true
deriving DecidableEq, Repr

/-- The endpoint stored in `self.express_endpoint` by `__init__`:
sandbox when `test` is true, production otherwise. -/
def express_endpoint (c : ProConfig) : Endpoint :=
  if c.test then Endpoint.sandbox else Endpoint.production

/-- The mutable state of a `PayPalPro` instance: its configuration, the
`item` purchase-intent dictionary (optional, as its default is None),
and the `request` attribute assigned on every call. -/
structure ProState where
  cfg : ProConfig
  item : Option Params
  request : Option Request
deriving DecidableEq, Repr

/-- A form object placed into a template context: the fresh unbound
payment form, the payment form bound to submitted body data, or the
confirm form pre-filled with the token and payer id. -/
inductive FormVal
  | freshPayment
  | boundPayment (data : Params)
  | confirmInitial (token : String) (payerId : String)
deriving DecidableEq, Repr

/-- A template context as the source populates it: an optional form
object and an optional error message. -/
structure Ctx where
  form : Option FormVal := none
  errors : Option String := none
deriving DecidableEq, Repr

/-- The HTTP-level outcome of a handler: a redirect to a URL or a
rendered template with its context. -/
inductive HttpResult
  | redirect (url : String)
  | render (template : String) (ctx : Ctx)
deriving DecidableEq, Repr

/-- Side-effect events a handler can perform, in execution order:
payment-record initialization, gateway processing of a record,
record persistence, failure flagging, and the two express gateway
calls (each recording the intent passed to the gateway). -/
inductive Event
  | initRecord
  | processRecord
  | saveRecord
  | setFlag (msg : String)
  | gwSetExpress (item : Option Params)
  | gwDoExpress (item : Params)
deriving DecidableEq, Repr

/-- Oracle inputs standing for the excluded collaborators during one
request: whether the payment form validates and its rendered errors,
the boolean returned by the payment-record process operation, and the
two gateway response dictionaries. -/
structure World where
  formValid : Bool
  formErrors : String
  processResult : Bool
  setExpressResponse : Params
  doExpressResponse : Params
deriving DecidableEq, Repr

/-- The result of one handler: the HTTP outcome (or a propagating
exception, as an error string) and the trace of events it performed. -/
abbrev HandlerResult := Except String HttpResult × List Event

/-- `PayPalPro.render_payment_form`: put a fresh payment form into the
supplied context and render the payment template. Pure. -/
def render_payment_form (cfg : ProConfig) (context : Ctx) : HttpResult :=
  HttpResult.render cfg.paymentTemplate { context with form := some FormVal.freshPayment }

/-- `PayPalPro.validate_payment_form`: build the payment form from the
body; on validation failure flag a fresh record with the error text and
skip the gateway; always init and save the record; then redirect to the
success target, redirect to the fail target, or re-render the bound
form with a corrective message. -/
def validate_payment_form (cfg : ProConfig) (req : Request) (w : World) : HandlerResult :=
  let failed := !w.formValid
  let flagEvents : List Event :=
    if w.formValid then [] else [Event.setFlag ("Bad form data: " ++ w.formErrors)]
  let success := !failed && w.processResult
  let events := flagEvents ++ [Event.initRecord]
    ++ (if failed then [] else [Event.processRecord]) ++ [Event.saveRecord]
  let resp : HttpResult :=
    if success then HttpResult.redirect cfg.successUrl
    else
      match cfg.failUrl with
      | some u => HttpResult.redirect u
      | none =>
        HttpResult.render cfg.paymentTemplate
          { form := some (FormVal.boundPayment req.POST),
            errors := some "Please correct the errors below and try again." }
  (Except.ok resp, events)

/-- `PayPalPro.redirect_to_express`: call setExpressCheckout with the
intent; on a Success acknowledgement carrying a TOKEN, redirect to the
sandbox express endpoint with token, AMT, RETURNURL and CANCELURL drawn
from the response and the intent (a missing intent key raises);
otherwise re-render the payment form with a retry-later error. -/
def redirect_to_express (cfg : ProConfig) (item : Option Params) (w : World) : HandlerResult :=
  let ev := [Event.gwSetExpress item]
  let response := w.setExpressResponse
  if getKey response "ACK" == some "Success" && hasKey response "TOKEN" then
    match item with
    | none => (Except.error "TypeError: NoneType is not subscriptable", ev)
    | some it =>
      match getKey response "TOKEN" with
      | none => (Except.error "KeyError: TOKEN", ev)
      | some tok =>
        match getKey it "amt" with
        | none => (Except.error "KeyError: amt", ev)
        | some amt =>
          match getKey it "returnurl" with
          | none => (Except.error "KeyError: returnurl", ev)
          | some ret =>
            match getKey it "cancelurl" with
            | none => (Except.error "KeyError: cancelurl", ev)
            | some can =>
              let pp_params : Params :=
                [("token", tok), ("AMT", amt), ("RETURNURL", ret), ("CANCELURL", can)]
              (Except.ok (HttpResult.redirect (SANDBOX_EXPRESS_ENDPOINT (urlencode pp_params))), ev)
  else
    (Except.ok (render_payment_form cfg
      { errors := some "There was a problem contacting PayPal. Please try again later." }), ev)

/-- `PayPalPro.render_confirm_form`: render the confirm template with a
confirm form pre-filled with the token and PayerID query values (a
missing key raises, though dispatch guards both). Pure. -/
def render_confirm_form (cfg : ProConfig) (req : Request) : HandlerResult :=
  match getKey req.GET "token" with
  | none => (Except.error "KeyError: token", [])
  | some tok =>
    match getKey req.GET "PayerID" with
    | none => (Except.error "KeyError: PayerID", [])
    | some pid =>
      (Except.ok (HttpResult.render cfg.confirmTemplate
        { form := some (FormVal.confirmInitial tok pid) }), [])

/-- `PayPalPro.validate_confirm_form`: take token and PayerID from the
body, merge them (as token/payerid) into the intent in place, call
doExpressCheckoutPayment with the augmented intent; on a Success
acknowledgement redirect to the success target, otherwise re-render the
payment form with a processing-failed error. Returns the new intent. -/
def validate_confirm_form (cfg : ProConfig) (item : Option Params) (req : Request)
    (w : World) : Except String HttpResult × List Event × Option Params :=
  match getKey req.POST "token" with
  | none => (Except.error "KeyError: token", [], item)
  | some tok =>
    match getKey req.POST "PayerID" with
    | none => (Except.error "KeyError: PayerID", [], item)
    | some pid =>
      match item with
      | none => (Except.error "AttributeError: NoneType has no attribute update", [], item)
      | some it =>
        let it2 := setKey (setKey it "token" tok) "payerid" pid
        let ev := [Event.gwDoExpress it2]
        if getKey w.doExpressResponse "ACK" == some "Success" then
          (Except.ok (HttpResult.redirect cfg.successUrl), ev, some it2)
        else
          (Except.ok (render_payment_form cfg
            { errors := some "There was a problem processing the payment. Please check your information and try again." }),
           ev, some it2)

instance {e a : Type} [DecidableEq e] [DecidableEq a] : DecidableEq (Except e a) := fun x y =>
  match x, y with
  | Except.ok u, Except.ok v =>
    if h : u = v then Decidable.isTrue (by rw [h])
    else Decidable.isFalse (by intro hh; cases hh; exact h rfl)
  | Except.error u, Except.error v =>
    if h : u = v then Decidable.isTrue (by rw [h])
    else Decidable.isFalse (by intro hh; cases hh; exact h rfl)
  | Except.ok _, Except.error _ => Decidable.isFalse (by intro hh; cases hh)
  | Except.error _, Except.ok _ => Decidable.isFalse (by intro hh; cases hh)

/-- The full observable outcome of handling one request: the HTTP-level
result (or propagating exception), the event trace, and the instance
state after the call. -/
structure Outcome where
  resp : Except String HttpResult
  events : List Event
  state : ProState
deriving DecidableEq, Repr

/-- `PayPalPro.__call__`: store the request on the instance, then route
by method and marker presence to exactly one of the five handlers,
with the express/confirm guards tested before the defaults. -/
def callPro (st : ProState) (req : Request) (w : World) : Outcome :=
  let st1 : ProState := { st with request := some req }
  if req.method == "GET" then
    if hasKey req.GET "express" then
      let r := redirect_to_express st1.cfg st1.item w
      { resp := r.1, events := r.2, state := st1 }
    else if hasKey req.GET "token" && hasKey req.GET "PayerID" then
      let r := render_confirm_form st1.cfg req
      { resp := r.1, events := r.2, state := st1 }
    else
      { resp := Except.ok (render_payment_form st1.cfg {}), events := [], state := st1 }
  else
    if hasKey req.POST "token" && hasKey req.POST "PayerID" then
      let r := validate_confirm_form st1.cfg st1.item req w
      { resp := r.1, events := r.2.1, state := { st1 with item := r.2.2 } }
    else
      let r := validate_payment_form st1.cfg req w
      { resp := r.1, events := r.2, state := st1 }

/-- The five handlers of the orchestrator, as an enumerated type for
stating the dispatch contract. -/
inductive Handler
  | renderPaymentForm
  | validateDirect
  | initiateExpress
  | renderConfirm
  | confirmExpress
deriving DecidableEq, Repr

/-- The routing decision of `__call__` as a classifier over requests,
mirroring its guard chain. -/
def dispatch (req : Request) : Handler :=
  if req.method == "GET" then
    if hasKey req.GET "express" then Handler.initiateExpress
    else if hasKey req.GET "token" && hasKey req.GET "PayerID" then Handler.renderConfirm
    else Handler.renderPaymentForm
  else
    if hasKey req.POST "token" && hasKey req.POST "PayerID" then Handler.confirmExpress
    else Handler.validateDirect

/-- Run one named handler on a state that already holds the request,
producing the same observables as `callPro`. -/
def runHandler : Handler → ProState → Request → World → Outcome
  | Handler.initiateExpress, st, _, w =>
    let r := redirect_to_express st.cfg st.item w
    { resp := r.1, events := r.2, state := st }
  | Handler.renderConfirm, st, req, _ =>
    let r := render_confirm_form st.cfg req
    { resp := r.1, events := r.2, state := st }
  | Handler.renderPaymentForm, st, _, _ =>
    { resp := Except.ok (render_payment_form st.cfg {}), events := [], state := st }
  | Handler.confirmExpress, st, req, w =>
    let r := validate_confirm_form st.cfg st.item req w
    { resp := r.1, events := r.2.1, state := { st with item := r.2.2 } }
  | Handler.validateDirect, st, req, w =>
    let r := validate_payment_form st.cfg req w
    { resp := r.1, events := r.2, state := st }

theorem hasKey_eq_isSome (l : Params) (k : String) : hasKey l k = (getKey l k).isSome := by
  induction l with
  | nil => rfl
  | cons p t ih =>
    by_cases hp : (p.1 == k) = true
    · simp [hasKey, getKey, List.find?, hp]
    · simp only [Bool.not_eq_true] at hp
      simp only [hasKey, getKey, List.any_cons, List.find?, hp, Bool.false_or] at ih ⊢
      exact ih

theorem hasKey_of_getKey (l : Params) (k v : String) (h : getKey l k = some v) :
    hasKey l k = true := by
  rw [hasKey_eq_isSome, h]
  rfl

/-- C1: dispatch in `__call__` is a strict priority chain: for a GET the
express marker routes to Initiate Express, else both confirm markers in
the query route to Render Confirm, else Render Payment Form; for a
non-GET both body markers route to Confirm Express Payment, else
Validate Direct Payment. `callPro` runs exactly the one handler that
`dispatch` selects, so a POST carrying both body markers is never
handled by Validate Direct Payment. -/
theorem C1_dispatch_priority (st : ProState) (req : Request) (w : World) :
    callPro st req w = runHandler (dispatch req) { st with request := some req } req w ∧
    (dispatch req = Handler.initiateExpress ↔
      (req.method == "GET") = true ∧ hasKey req.GET "express" = true) ∧
    (dispatch req = Handler.renderConfirm ↔
      (req.method == "GET") = true ∧ hasKey req.GET "express" = false ∧
        (hasKey req.GET "token" && hasKey req.GET "PayerID") = true) ∧
    (dispatch req = Handler.renderPaymentForm ↔
      (req.method == "GET") = true ∧ hasKey req.GET "express" = false ∧
        (hasKey req.GET "token" && hasKey req.GET "PayerID") = false) ∧
    (dispatch req = Handler.confirmExpress ↔
      (req.method == "GET") = false ∧
        (hasKey req.POST "token" && hasKey req.POST "PayerID") = true) ∧
    (dispatch req = Handler.validateDirect ↔
      (req.method == "GET") = false ∧
        (hasKey req.POST "token" && hasKey req.POST "PayerID") = false) := by
  by_cases h1 : (req.method == "GET") = true <;>
  by_cases h2 : hasKey req.GET "express" = true <;>
  by_cases h3 : hasKey req.GET "token" = true <;>
  by_cases h4 : hasKey req.GET "PayerID" = true <;>
  by_cases h5 : hasKey req.POST "token" = true <;>
  by_cases h6 : hasKey req.POST "PayerID" = true <;>
  simp_all [callPro, runHandler, dispatch]

/-- C2: every POST handled by Validate Direct Payment emits exactly one
record-persistence event in its trace, and the trace is produced before
the HTTP result is returned, on every path: validation failure,
processing failure, and processing success all yield an ok response
with one saveRecord event. -/
theorem C2_persist_exactly_once (st : ProState) (req : Request) (w : World)
    (hm : (req.method == "GET") = false)
    (hp : (hasKey req.POST "token" && hasKey req.POST "PayerID") = false) :
    (callPro st req w).events.count Event.saveRecord = 1 ∧
    ∃ r, (callPro st req w).resp = Except.ok r := by
  by_cases h5 : hasKey req.POST "token" = true <;>
  by_cases h6 : hasKey req.POST "PayerID" = true <;>
  cases hv : w.formValid <;>
  cases hpr : w.processResult <;>
  cases hf : st.cfg.failUrl <;>
  simp_all [callPro, validate_payment_form, List.count_cons, List.count_nil, List.count_append]

/-- Witness for C2 at a concrete POST without express markers. -/
theorem C2_persist_exactly_once_witness :
    (callPro { cfg := {}, item := none, request := none }
      { method := "POST", GET := [], POST := [("firstname", "Bob")] }
      { formValid := true, formErrors := "", processResult := true,
        setExpressResponse := [], doExpressResponse := [] }).events.count Event.saveRecord = 1 ∧
    ∃ r, (callPro { cfg := {}, item := none, request := none }
      { method := "POST", GET := [], POST := [("firstname", "Bob")] }
      { formValid := true, formErrors := "", processResult := true,
        setExpressResponse := [], doExpressResponse := [] }).resp = Except.ok r :=
  C2_persist_exactly_once _ _ _ (by decide) (by decide)

/-- C4: on a POST handled by Validate Direct Payment whose form fails
validation, the gateway process operation is never invoked, the
synthesized record is flagged with a message containing the validation
error text, and exactly one persistence event occurs. -/
theorem C4_validation_failure (st : ProState) (req : Request) (w : World)
    (hm : (req.method == "GET") = false)
    (hp : (hasKey req.POST "token" && hasKey req.POST "PayerID") = false)
    (hv : w.formValid = false) :
    Event.processRecord ∉ (callPro st req w).events ∧
    Event.setFlag ("Bad form data: " ++ w.formErrors) ∈ (callPro st req w).events ∧
    (callPro st req w).events.count Event.saveRecord = 1 := by
  by_cases h5 : hasKey req.POST "token" = true <;>
  by_cases h6 : hasKey req.POST "PayerID" = true <;>
  simp_all [callPro, validate_payment_form, List.count_cons, List.count_nil, List.count_append]

/-- Witness for C4 at a concrete POST with an invalid form. -/
theorem C4_validation_failure_witness :
    Event.processRecord ∉ (callPro { cfg := {}, item := none, request := none }
      { method := "POST", GET := [], POST := [] }
      { formValid := false, formErrors := "amt: required", processResult := false,
        setExpressResponse := [], doExpressResponse := [] }).events ∧
    Event.setFlag ("Bad form data: " ++ "amt: required") ∈
      (callPro { cfg := {}, item := none, request := none }
      { method := "POST", GET := [], POST := [] }
      { formValid := false, formErrors := "amt: required", processResult := false,
        setExpressResponse := [], doExpressResponse := [] }).events ∧
    (callPro { cfg := {}, item := none, request := none }
      { method := "POST", GET := [], POST := [] }
      { formValid := false, formErrors := "amt: required", processResult := false,
        setExpressResponse := [], doExpressResponse := [] }).events.count Event.saveRecord = 1 :=
  C4_validation_failure _ _ _ (by decide) (by decide) (by decide)

/-- C5: terminal outcome of Validate Direct Payment: gateway success
redirects to the configured success target; otherwise a configured fail
target is redirected to; otherwise the payment form is re-rendered
bound to the originally submitted body values with a non-empty generic
corrective-action message. -/
theorem C5_direct_outcome (st : ProState) (req : Request) (w : World)
    (hm : (req.method == "GET") = false)
    (hp : (hasKey req.POST "token" && hasKey req.POST "PayerID") = false) :
    ((w.formValid && w.processResult) = true →
       (callPro st req w).resp = Except.ok (HttpResult.redirect st.cfg.successUrl)) ∧
    ((w.formValid && w.processResult) = false → ∀ u, st.cfg.failUrl = some u →
       (callPro st req w).resp = Except.ok (HttpResult.redirect u)) ∧
    ((w.formValid && w.processResult) = false → st.cfg.failUrl = none →
       (callPro st req w).resp = Except.ok (HttpResult.render st.cfg.paymentTemplate
         { form := some (FormVal.boundPayment req.POST),
           errors := some "Please correct the errors below and try again." })) ∧
    ("Please correct the errors below and try again." : String) ≠ "" := by
  by_cases h5 : hasKey req.POST "token" = true <;>
  by_cases h6 : hasKey req.POST "PayerID" = true <;>
  cases hv : w.formValid <;>
  cases hpr : w.processResult <;>
  cases hf : st.cfg.failUrl <;>
  simp_all [callPro, validate_payment_form]

/-- Witness for C5 at a concrete POST with a valid form, failed
processing and no fail target: the bound form is re-rendered with the
corrective message. -/
theorem C5_direct_outcome_witness :
    ("POST" == "GET") = false ∧
    (hasKey [("amt", "10.00")] "token" && hasKey [("amt", "10.00")] "PayerID") = false ∧
    (callPro { cfg := {}, item := none, request := none }
        { method := "POST", GET := [], POST := [("amt", "10.00")] }
        { formValid := true, formErrors := "", processResult := false,
          setExpressResponse := [], doExpressResponse := [] }).resp =
      Except.ok (HttpResult.render "pro/payment.html"
        { form := some (FormVal.boundPayment [("amt", "10.00")]),
          errors := some "Please correct the errors below and try again." }) :=
  ⟨by decide, by decide,
    (C5_direct_outcome { cfg := {}, item := none, request := none }
      { method := "POST", GET := [], POST := [("amt", "10.00")] }
      { formValid := true, formErrors := "", processResult := false,
        setExpressResponse := [], doExpressResponse := [] }
      (by decide) (by decide)).2.2.1 (by decide) rfl⟩

/-- C10: in every POST handled by Validate Direct Payment, the record
init operation occurs exactly once in the trace, and no persistence or
gateway-processing event precedes it (so init runs before save, and
process, when present, runs after init), on the valid and the invalid
form path alike. -/
theorem C10_init_once_before_save (st : ProState) (req : Request) (w : World)
    (hm : (req.method == "GET") = false)
    (hp : (hasKey req.POST "token" && hasKey req.POST "PayerID") = false) :
    (callPro st req w).events.count Event.initRecord = 1 ∧
    ((callPro st req w).events.takeWhile (fun e => !(e == Event.initRecord))).all
      (fun e => !(e == Event.saveRecord) && !(e == Event.processRecord)) = true := by
  by_cases h5 : hasKey req.POST "token" = true <;>
  by_cases h6 : hasKey req.POST "PayerID" = true <;>
  cases hv : w.formValid <;>
  simp_all [callPro, validate_payment_form, List.count_cons, List.count_nil,
    List.takeWhile, List.all]

/-- Witness for C10 at a concrete POST with an invalid form. -/
theorem C10_init_once_before_save_witness :
    (callPro { cfg := {}, item := none, request := none }
      { method := "POST", GET := [], POST := [] }
      { formValid := false, formErrors := "bad", processResult := false,
        setExpressResponse := [], doExpressResponse := [] }).events.count Event.initRecord = 1 ∧
    ((callPro { cfg := {}, item := none, request := none }
      { method := "POST", GET := [], POST := [] }
      { formValid := false, formErrors := "bad", processResult := false,
        setExpressResponse := [], doExpressResponse := [] }).events.takeWhile
        (fun e => !(e == Event.initRecord))).all
      (fun e => !(e == Event.saveRecord) && !(e == Event.processRecord)) = true :=
  C10_init_once_before_save _ _ _ (by decide) (by decide)

theorem redirect_to_express_events (cfg : ProConfig) (item : Option Params) (w : World) :
    (redirect_to_express cfg item w).2 = [Event.gwSetExpress item] := by
  by_cases hg : (getKey w.setExpressResponse "ACK" == some "Success" &&
      hasKey w.setExpressResponse "TOKEN") = true
  · cases item with
    | none => simp [redirect_to_express, hg]
    | some it =>
      cases h1 : getKey w.setExpressResponse "TOKEN" with
      | none => simp [redirect_to_express, hg, h1]
      | some tok =>
        cases h2 : getKey it "amt" with
        | none => simp [redirect_to_express, hg, h1, h2]
        | some amt =>
          cases h3 : getKey it "returnurl" with
          | none => simp [redirect_to_express, hg, h1, h2, h3]
          | some ret =>
            cases h4 : getKey it "cancelurl" <;>
            simp [redirect_to_express, hg, h1, h2, h3, h4]
  · simp [redirect_to_express, hg]

/-- C6: on a GET carrying the express marker, a gateway response with a
Success acknowledgement and a TOKEN yields a redirect whose query
string embeds the token together with the intent values for amount,
return URL and cancel URL; any other response shape yields a re-render
of the payment form with the generic retry-later error; and in both
cases no persistence event occurs. -/
theorem C6_express_initiate (st : ProState) (req : Request) (w : World)
    (tok amt ret can : String) (it : Params)
    (hm : (req.method == "GET") = true)
    (he : hasKey req.GET "express" = true) :
    ((getKey w.setExpressResponse "ACK" = some "Success" →
      getKey w.setExpressResponse "TOKEN" = some tok →
      st.item = some it →
      getKey it "amt" = some amt →
      getKey it "returnurl" = some ret →
      getKey it "cancelurl" = some can →
      (callPro st req w).resp = Except.ok (HttpResult.redirect
        (SANDBOX_EXPRESS_ENDPOINT (urlencode
          [("token", tok), ("AMT", amt), ("RETURNURL", ret), ("CANCELURL", can)])))) ∧
    ((getKey w.setExpressResponse "ACK" == some "Success" &&
        hasKey w.setExpressResponse "TOKEN") = false →
      (callPro st req w).resp = Except.ok (HttpResult.render st.cfg.paymentTemplate
        { form := some FormVal.freshPayment,
          errors := some "There was a problem contacting PayPal. Please try again later." })) ∧
    Event.saveRecord ∉ (callPro st req w).events) := by
  refine ⟨?_, ?_, ?_⟩
  · intro hACK hTOK hit hamt hret hcan
    have htk : hasKey w.setExpressResponse "TOKEN" = true := hasKey_of_getKey _ _ _ hTOK
    simp [callPro, redirect_to_express, hm, he, hACK, hTOK, hit, hamt, hret, hcan, htk]
  · intro hng
    simp [callPro, redirect_to_express, hm, he, hng, render_payment_form]
  · simp [callPro, hm, he, redirect_to_express_events]

/-- Witness for C6 at a concrete express GET with a Success response. -/
theorem C6_express_initiate_witness :
    ("GET" == "GET") = true ∧
    hasKey [("express", "1")] "express" = true ∧
    (callPro
        { cfg := {},
          item := some [("amt", "10.00"), ("returnurl", "http://r"), ("cancelurl", "http://c")],
          request := none }
        { method := "GET", GET := [("express", "1")], POST := [] }
        { formValid := true, formErrors := "", processResult := true,
          setExpressResponse := [("ACK", "Success"), ("TOKEN", "abc")],
          doExpressResponse := [] }).resp =
      Except.ok (HttpResult.redirect (SANDBOX_EXPRESS_ENDPOINT (urlencode
        [("token", "abc"), ("AMT", "10.00"), ("RETURNURL", "http://r"), ("CANCELURL", "http://c")]))) :=
  ⟨by decide, by decide,
    (C6_express_initiate
      { cfg := {},
        item := some [("amt", "10.00"), ("returnurl", "http://r"), ("cancelurl", "http://c")],
        request := none }
      { method := "GET", GET := [("express", "1")], POST := [] }
      { formValid := true, formErrors := "", processResult := true,
        setExpressResponse := [("ACK", "Success"), ("TOKEN", "abc")],
        doExpressResponse := [] }
      "abc" "10.00" "http://r" "http://c"
      [("amt", "10.00"), ("returnurl", "http://r"), ("cancelurl", "http://c")]
      (by decide) (by decide)).1
      (by decide) (by decide) rfl (by decide) (by decide) (by decide)⟩

/-- C7: on a POST handled by Confirm Express Payment, the token and
payer id taken from the body are merged into the Purchase Intent, the
gateway execute operation is called exactly once with the augmented
intent, a Success acknowledgement yields a redirect to the success
target, and any other response yields a re-render of the payment form
with the generic processing-failed error. -/
theorem C7_confirm_express (st : ProState) (req : Request) (w : World)
    (tok pid : String) (it : Params)
    (hm : (req.method == "GET") = false)
    (ht : getKey req.POST "token" = some tok)
    (hpi : getKey req.POST "PayerID" = some pid)
    (hit : st.item = some it) :
    (callPro st req w).events =
      [Event.gwDoExpress (setKey (setKey it "token" tok) "payerid" pid)] ∧
    (callPro st req w).state.item =
      some (setKey (setKey it "token" tok) "payerid" pid) ∧
    (getKey w.doExpressResponse "ACK" = some "Success" →
      (callPro st req w).resp = Except.ok (HttpResult.redirect st.cfg.successUrl)) ∧
    ((getKey w.doExpressResponse "ACK" == some "Success") = false →
      (callPro st req w).resp = Except.ok (HttpResult.render st.cfg.paymentTemplate
        { form := some FormVal.freshPayment,
          errors := some "There was a problem processing the payment. Please check your information and try again." })) := by
  have h5 : hasKey req.POST "token" = true := hasKey_of_getKey _ _ _ ht
  have h6 : hasKey req.POST "PayerID" = true := hasKey_of_getKey _ _ _ hpi
  by_cases hack : (getKey w.doExpressResponse "ACK" == some "Success") = true <;>
  simp_all [callPro, validate_confirm_form, render_payment_form]

/-- Witness for C7 at a concrete confirm POST with a Success response. -/
theorem C7_confirm_express_witness :
    ("POST" == "GET") = false ∧
    getKey [("token", "abc"), ("PayerID", "p1")] "token" = some "abc" ∧
    getKey [("token", "abc"), ("PayerID", "p1")] "PayerID" = some "p1" ∧
    (callPro { cfg := {}, item := some [("amt", "10.00")], request := none }
        { method := "POST", GET := [], POST := [("token", "abc"), ("PayerID", "p1")] }
        { formValid := true, formErrors := "", processResult := true,
          setExpressResponse := [], doExpressResponse := [("ACK", "Success")] }).events =
      [Event.gwDoExpress (setKey (setKey [("amt", "10.00")] "token" "abc") "payerid" "p1")] ∧
    (callPro { cfg := {}, item := some [("amt", "10.00")], request := none }
        { method := "POST", GET := [], POST := [("token", "abc"), ("PayerID", "p1")] }
        { formValid := true, formErrors := "", processResult := true,
          setExpressResponse := [], doExpressResponse := [("ACK", "Success")] }).resp =
      Except.ok (HttpResult.redirect ({} : ProConfig).successUrl) :=
  ⟨by decide, by decide, by decide,
    (C7_confirm_express { cfg := {}, item := some [("amt", "10.00")], request := none }
      { method := "POST", GET := [], POST := [("token", "abc"), ("PayerID", "p1")] }
      { formValid := true, formErrors := "", processResult := true,
        setExpressResponse := [], doExpressResponse := [("ACK", "Success")] }
      "abc" "p1" [("amt", "10.00")]
      (by decide) (by decide) (by decide) rfl).1,
    (C7_confirm_express { cfg := {}, item := some [("amt", "10.00")], request := none }
      { method := "POST", GET := [], POST := [("token", "abc"), ("PayerID", "p1")] }
      { formValid := true, formErrors := "", processResult := true,
        setExpressResponse := [], doExpressResponse := [("ACK", "Success")] }
      "abc" "p1" [("amt", "10.00")]
      (by decide) (by decide) (by decide) rfl).2.2.1 (by decide)⟩

/-- C3: the code contradicts the claim and its own configuration: with
the production configuration (test false) `__init__` selects the
production endpoint, yet a successful Initiate Express still redirects
to the sandbox endpoint, which differs from the production one on the
same query string. The stored endpoint selection is never read by
`redirect_to_express`. -/
theorem C3_sandbox_endpoint_bug :
    express_endpoint { test := false } = Endpoint.production ∧
    (callPro
        { cfg := { test := false },
          item := some [("amt", "10.00"), ("returnurl", "http://r"), ("cancelurl", "http://c")],
          request := none }
        { method := "GET", GET := [("express", "1")], POST := [] }
        { formValid := true, formErrors := "", processResult := true,
          setExpressResponse := [("ACK", "Success"), ("TOKEN", "abc")],
          doExpressResponse := [] }).resp =
      Except.ok (HttpResult.redirect (SANDBOX_EXPRESS_ENDPOINT (urlencode
        [("token", "abc"), ("AMT", "10.00"), ("RETURNURL", "http://r"), ("CANCELURL", "http://c")]))) ∧
    SANDBOX_EXPRESS_ENDPOINT (urlencode
        [("token", "abc"), ("AMT", "10.00"), ("RETURNURL", "http://r"), ("CANCELURL", "http://c")]) ≠
      endpointFormat (express_endpoint { test := false }) (urlencode
        [("token", "abc"), ("AMT", "10.00"), ("RETURNURL", "http://r"), ("CANCELURL", "http://c")]) := by
  refine ⟨rfl, by decide, by decide⟩

/-- C8 as stated is false: handling a Confirm Express Payment POST
mutates the instance state, merging the session pair into the owned
Purchase Intent in place (and the request attribute is overwritten). -/
theorem C8_counterexample :
    (callPro { cfg := {}, item := some [("amt", "10.00")], request := none }
        { method := "POST", GET := [], POST := [("token", "tok1"), ("PayerID", "pay1")] }
        { formValid := true, formErrors := "", processResult := true,
          setExpressResponse := [], doExpressResponse := [("ACK", "Success")] }).state ≠
      { cfg := {}, item := some [("amt", "10.00")], request := none } := by
  decide

/-- C8 amended: handling a request never mutates the construction-time
configuration, always overwrites the instance request attribute with
the inbound request, and leaves the Purchase Intent unchanged except
when the request is a POST carrying both body markers, in which case
Confirm Express Payment merges the session pair into it in place. -/
theorem C8_amended_state_mutation (st : ProState) (req : Request) (w : World) :
    (callPro st req w).state.cfg = st.cfg ∧
    (callPro st req w).state.request = some req ∧
    (((req.method == "GET") = true ∨
        (hasKey req.POST "token" && hasKey req.POST "PayerID") = false) →
      (callPro st req w).state.item = st.item) := by
  by_cases h1 : (req.method == "GET") = true <;>
  by_cases h2 : hasKey req.GET "express" = true <;>
  by_cases h3 : hasKey req.GET "token" = true <;>
  by_cases h4 : hasKey req.GET "PayerID" = true <;>
  by_cases h5 : hasKey req.POST "token" = true <;>
  by_cases h6 : hasKey req.POST "PayerID" = true <;>
  simp_all [callPro]

/-- Witness for C8 amended at a concrete direct-flow POST, whose
handling leaves the Purchase Intent unchanged. -/
theorem C8_amended_state_mutation_witness :
    (callPro { cfg := {}, item := some [("amt", "10.00")], request := none }
        { method := "POST", GET := [], POST := [("firstname", "Bob")] }
        { formValid := true, formErrors := "", processResult := true,
          setExpressResponse := [], doExpressResponse := [] }).state.cfg = ({} : ProConfig) ∧
    (callPro { cfg := {}, item := some [("amt", "10.00")], request := none }
        { method := "POST", GET := [], POST := [("firstname", "Bob")] }
        { formValid := true, formErrors := "", processResult := true,
          setExpressResponse := [], doExpressResponse := [] }).state.item =
      some [("amt", "10.00")] :=
  ⟨(C8_amended_state_mutation { cfg := {}, item := some [("amt", "10.00")], request := none }
      { method := "POST", GET := [], POST := [("firstname", "Bob")] }
      { formValid := true, formErrors := "", processResult := true,
        setExpressResponse := [], doExpressResponse := [] }).1,
    (C8_amended_state_mutation { cfg := {}, item := some [("amt", "10.00")], request := none }
      { method := "POST", GET := [], POST := [("firstname", "Bob")] }
      { formValid := true, formErrors := "", processResult := true,
        setExpressResponse := [], doExpressResponse := [] }).2.2 (Or.inr (by decide))⟩

/-- C9 as stated is false: on a GET with the express marker and a
successful gateway response, an intent lacking the returnurl key makes
the handler raise a KeyError that propagates instead of producing a
render or redirect. -/
theorem C9_counterexample :
    (callPro
        { cfg := {},
          item := some [("amt", "10.00"), ("cancelurl", "http://c")],
          request := none }
        { method := "GET", GET := [("express", "1")], POST := [] }
        { formValid := true, formErrors := "", processResult := true,
          setExpressResponse := [("ACK", "Success"), ("TOKEN", "abc")],
          doExpressResponse := [] }).resp =
      Except.error "KeyError: returnurl" := by
  decide

/-- C9 amended: provided the Purchase Intent is present and contains
the amt, returnurl and cancelurl keys, no exception propagates from any
handler: every inbound request terminates in a rendered form or a
redirect. -/
theorem C9_amended_no_exception (st : ProState) (req : Request) (w : World) (it : Params)
    (hit : st.item = some it)
    (ha : hasKey it "amt" = true)
    (hr : hasKey it "returnurl" = true)
    (hc : hasKey it "cancelurl" = true) :
    ∃ r, (callPro st req w).resp = Except.ok r := by
  obtain ⟨amt, hamt⟩ := Option.isSome_iff_exists.mp (by rw [← hasKey_eq_isSome]; exact ha)
  obtain ⟨ret, hret⟩ := Option.isSome_iff_exists.mp (by rw [← hasKey_eq_isSome]; exact hr)
  obtain ⟨can, hcan⟩ := Option.isSome_iff_exists.mp (by rw [← hasKey_eq_isSome]; exact hc)
  by_cases h1 : (req.method == "GET") = true
  · by_cases h2 : hasKey req.GET "express" = true
    · by_cases hg : (getKey w.setExpressResponse "ACK" == some "Success" &&
          hasKey w.setExpressResponse "TOKEN") = true
      · have hg2 := hg
        rw [Bool.and_eq_true] at hg2
        have htk : (getKey w.setExpressResponse "TOKEN").isSome = true := by
          rw [← hasKey_eq_isSome]
          exact hg2.2
        obtain ⟨tok, htok⟩ := Option.isSome_iff_exists.mp htk
        simp [callPro, redirect_to_express, h1, h2, hg, hit, hamt, hret, hcan, htok]
      · simp [callPro, redirect_to_express, h1, h2, hg]
    · by_cases h3 : hasKey req.GET "token" = true
      · by_cases h4 : hasKey req.GET "PayerID" = true
        · obtain ⟨t1, ht1⟩ := Option.isSome_iff_exists.mp (by rw [← hasKey_eq_isSome]; exact h3)
          obtain ⟨p1, hp1⟩ := Option.isSome_iff_exists.mp (by rw [← hasKey_eq_isSome]; exact h4)
          simp [callPro, render_confirm_form, h1, h2, h3, h4, ht1, hp1]
        · simp [callPro, h1, h2, h3, h4]
      · simp [callPro, h1, h2, h3]
  · by_cases h5 : hasKey req.POST "token" = true
    · by_cases h6 : hasKey req.POST "PayerID" = true
      · obtain ⟨t1, ht1⟩ := Option.isSome_iff_exists.mp (by rw [← hasKey_eq_isSome]; exact h5)
        obtain ⟨p1, hp1⟩ := Option.isSome_iff_exists.mp (by rw [← hasKey_eq_isSome]; exact h6)
        by_cases hack : (getKey w.doExpressResponse "ACK" == some "Success") = true <;>
        simp [callPro, validate_confirm_form, h1, h5, h6, ht1, hp1, hit, hack]
      · simp [callPro, validate_payment_form, h1, h5, h6]
    · simp [callPro, validate_payment_form, h1, h5]

/-- Witness for C9 amended at a concrete express GET with a complete
intent. -/
theorem C9_amended_no_exception_witness :
    ∃ r, (callPro
        { cfg := {},
          item := some [("amt", "10.00"), ("returnurl", "http://r"), ("cancelurl", "http://c")],
          request := none }
        { method := "GET", GET := [("express", "1")], POST := [] }
        { formValid := true, formErrors := "", processResult := true,
          setExpressResponse := [("ACK", "Success"), ("TOKEN", "abc")],
          doExpressResponse := [] }).resp = Except.ok r :=
  C9_amended_no_exception
    { cfg := {},
      item := some [("amt", "10.00"), ("returnurl", "http://r"), ("cancelurl", "http://c")],
      request := none }
    { method := "GET", GET := [("express", "1")], POST := [] }
    { formValid := true, formErrors := "", processResult := true,
      setExpressResponse := [("ACK", "Success"), ("TOKEN", "abc")],
      doExpressResponse := [] }
    [("amt", "10.00"), ("returnurl", "http://r"), ("cancelurl", "http://c")]
    rfl (by decide) (by decide) (by decide)
